import Mathlib

/-!
Shallow embedding of the SIP softphone client module (`lib/sipClient.ts`):
the module-level state (`currentSession`, `isOnHold`), the call-control
operations (`muteCall`, `holdCall`, `hangupCall`, `sendDtmf`, `getCallState`,
`isCallOnHold`, `toggleVideo`, `switchCamera`, `debugAudioTracks`), the
call-setup functions (`initSIP`, `makeCall`, `acceptCall`) and the target-URI
normalisation they share.  WebRTC objects (peer connection, RTP senders,
media tracks) are modelled as immutable records, with mutation expressed as
state passing; asynchronous library calls (getUserMedia, replaceTrack,
registration events, timers) are modelled as explicit inputs/events.
-/

set_option autoImplicit false

namespace SipClient

/-- Media track kind, mirroring `MediaStreamTrack.kind` (`'audio' | 'video'`). -/
inductive MediaKind where
  | audio
  | video
deriving DecidableEq, Repr

/-- Track `readyState` (`'live' | 'ended'`). -/
inductive ReadyState where
  | live
  | ended
deriving DecidableEq, Repr

/-- A local `MediaStreamTrack` as observed/mutated through an RTP sender. -/
structure MediaTrack where
  kind : MediaKind
  enabled : Bool
  readyState : ReadyState
  muted : Bool
deriving DecidableEq, Repr

/-- An `RTCRtpSender`: an optional attached track plus its encoding
`active` flags (as read/written through `getParameters`/`setParameters`;
`none` models an unset `active` field). -/
structure RTCRtpSender where
  track : Option MediaTrack
  encodings : List (Option Bool)
deriving DecidableEq, Repr

/-- The `RTCPeerConnection` fields the client reads: the sender list and the
state/SDP fields copied into diagnostic reports (`localSdp`/`remoteSdp` are
`localDescription?.sdp` / `remoteDescription?.sdp`). -/
structure PeerConnection where
  senders : List RTCRtpSender
  connectionState : String
  iceConnectionState : String
  signalingState : String
  localSdp : Option String
  remoteSdp : Option String
deriving DecidableEq, Repr

/-- The session description handler, which may or may not expose a
`peerConnection` yet. -/
structure SessionDescriptionHandler where
  peerConnection : Option PeerConnection
deriving DecidableEq, Repr

/-- Whether the session object is an `Inviter` (outbound) or an
`Invitation` (inbound) — the source distinguishes them by `instanceof`. -/
inductive SessionKind where
  | inviter
  | invitation
deriving DecidableEq, Repr

/-- sip.js dialog states. -/
inductive SessionState where
  | Initial
  | Establishing
  | Established
  | Terminated
deriving DecidableEq, Repr

/-- A sip.js `Session` as the client observes it. -/
structure Session where
  kind : SessionKind
  state : SessionState
  sdh : Option SessionDescriptionHandler
deriving DecidableEq, Repr

/-- The module-level mutable state of `sipClient.ts`:
`let currentSession : Session` (nullable in practice) and
`let isOnHold : boolean = false`. -/
structure ModuleState where
  currentSession : Option Session
  isOnHold : Bool
deriving DecidableEq, Repr

/-- A JavaScript error value: either a `DOMException` (with its `name`) or a
plain `Error` (with its message). -/
inductive JsError where
  | domException (name : String) (msg : String)
  | error (msg : String)
deriving DecidableEq, Repr

/-- Update one sender the way `muteCall` does: if the sender has a track and
`track.kind === 'audio'`, set `track.enabled = !mute`. -/
def setAudioEnabled (mute : Bool) (s : RTCRtpSender) : RTCRtpSender :=
  match s.track with
  | some t =>
      if t.kind = MediaKind.audio then
        { s with track := some { t with enabled := !mute } }
      else s
  | none => s

/-- `muteCall(mute)`: returns `false` when there is no current session, no
session description handler or no peer connection; otherwise flips every
audio sender's `track.enabled` to `!mute` and returns `true`. -/
def muteCall (mute : Bool) (st : ModuleState) : ModuleState × Bool :=
  match st.currentSession with
  | none => (st, false)
  | some sess =>
    match sess.sdh with
    | none => (st, false)
    | some sdh =>
      match sdh.peerConnection with
      | none => (st, false)
      | some pc =>
        let pc' := { pc with senders := pc.senders.map (setAudioEnabled mute) }
        let sess' := { sess with sdh := some { sdh with peerConnection := some pc' } }
        ({ st with currentSession := some sess' }, true)

/-- Update one sender the way `holdCall` does: if the sender has a track
(of any kind), set `track.enabled = !hold`. -/
def setTrackEnabled (hold : Bool) (s : RTCRtpSender) : RTCRtpSender :=
  match s.track with
  | some t => { s with track := some { t with enabled := !hold } }
  | none => s

/-- `holdCall(hold)`: returns `false` when there is no current session or no
session description handler.  When the handler exists, it first assigns the
module flag `isOnHold = hold`, then reads `peerConnection` — if that is
absent the subsequent `pc.getSenders()` throws and is caught, returning
`false` but leaving the flag already mutated.  Otherwise every sender's
track gets `enabled = !hold` and `true` is returned. -/
def holdCall (hold : Bool) (st : ModuleState) : ModuleState × Bool :=
  match st.currentSession with
  | none => (st, false)
  | some sess =>
    match sess.sdh with
    | none => (st, false)
    | some sdh =>
      match sdh.peerConnection with
      | none => ({ st with isOnHold := hold }, false)
      | some pc =>
        let pc' := { pc with senders := pc.senders.map (setTrackEnabled hold) }
        let sess' := { sess with sdh := some { sdh with peerConnection := some pc' } }
        ({ st with isOnHold := hold, currentSession := some sess' }, true)

/-- `isCallOnHold()`: returns the module-level `isOnHold` flag. -/
def isCallOnHold (st : ModuleState) : Bool :=
  st.isOnHold

/-- `getCallState()`: `"Idle"`-like `none` when no session, else the
session's dialog state. -/
def getCallState (st : ModuleState) : Option SessionState :=
  match st.currentSession with
  | none => none
  | some sess => some sess.state

/-- The signalling requests `hangupCall` can issue on the session. -/
inductive SigAction where
  | bye
  | cancel
  | reject
deriving DecidableEq, Repr

/-- `hangupCall()`: when a session exists, sends `bye` if Established,
`cancel` if Initial and the session is an `Inviter`, `reject` if Initial and
an `Invitation`; then synchronously clears `currentSession` (the
terminated-state listener it also installs only removes itself).  With no
session it does nothing.  The returned list is the signalling actions
issued. -/
def hangupCall (st : ModuleState) : ModuleState × List SigAction :=
  match st.currentSession with
  | none => (st, [])
  | some sess =>
    let acts :=
      if sess.state = SessionState.Established then [SigAction.bye]
      else if sess.state = SessionState.Initial then
        match sess.kind with
        | SessionKind.inviter => [SigAction.cancel]
        | SessionKind.invitation => [SigAction.reject]
      else []
    ({ st with currentSession := none }, acts)

end SipClient

namespace SipClient

/-- A state with no active call and the hold flag clear (module initial
state). -/
def idleState : ModuleState :=
  { currentSession := none, isOnHold := false }

end SipClient

/-- C4: `hangupCall` always clears the active-session reference
synchronously; a second consecutive call therefore finds no session,
performs no signalling action and changes no state (twice is observably
once); and a call with no active session returns immediately with no
signalling action and no state change. -/
theorem hangupCall_idempotent (st : SipClient.ModuleState) :
    (SipClient.hangupCall st).1.currentSession = none ∧
    SipClient.hangupCall (SipClient.hangupCall st).1 =
      ((SipClient.hangupCall st).1, []) ∧
    (st.currentSession = none → SipClient.hangupCall st = (st, [])) := by
  cases h : st.currentSession with
  | none =>
      refine ⟨?_, ?_, fun _ => ?_⟩ <;> simp [SipClient.hangupCall, h]
  | some sess =>
      refine ⟨?_, ?_, fun hc => ?_⟩
      · simp [SipClient.hangupCall, h]
      · simp [SipClient.hangupCall, h]
      · simp at hc

/-- C4 witness: evaluating the theorem on the idle state. -/
theorem hangupCall_idempotent_witness :
    SipClient.hangupCall SipClient.idleState = (SipClient.idleState, []) :=
  (hangupCall_idempotent SipClient.idleState).2.2 rfl

namespace SipClient

/-- A call-control operation from the mute/hold family, with its boolean
argument. -/
inductive CtlOp where
  | mute (b : Bool)
  | hold (b : Bool)
deriving DecidableEq, Repr

/-- The boolean argument of a `CtlOp`. -/
def CtlOp.arg : CtlOp → Bool
  | .mute b => b
  | .hold b => b

/-- Run one control operation on the module state (dropping the returned
boolean). -/
def applyOp (st : ModuleState) (o : CtlOp) : ModuleState :=
  match o with
  | .mute b => (muteCall b st).1
  | .hold b => (holdCall b st).1

/-- Run a sequence of mute/hold operations left to right. -/
def applyOps (ops : List CtlOp) (st : ModuleState) : ModuleState :=
  ops.foldl applyOp st

/-- The sender list of the current session's peer connection (empty when the
session, its handler or its peer connection is missing). -/
def sendersOf (st : ModuleState) : List RTCRtpSender :=
  match st.currentSession with
  | some sess =>
    match sess.sdh with
    | some sdh =>
      match sdh.peerConnection with
      | some pc => pc.senders
      | none => []
    | none => []
  | none => []

/-- The current session exists and exposes a session description handler
with a peer connection. -/
def hasActivePc (st : ModuleState) : Bool :=
  match st.currentSession with
  | some sess =>
    match sess.sdh with
    | some sdh => sdh.peerConnection.isSome
    | none => false
  | none => false

/-- There is at least one live audio sender on the current peer
connection. -/
def hasLiveAudioSender (st : ModuleState) : Bool :=
  (sendersOf st).any fun s =>
    match s.track with
    | some t => t.kind = MediaKind.audio && t.readyState = ReadyState.live
    | none => false

end SipClient

namespace SipClient

theorem applyOp_hasActivePc (st : ModuleState) (o : CtlOp)
    (h : hasActivePc st = true) : hasActivePc (applyOp st o) = true := by
  rcases st with ⟨cs, hold⟩
  cases cs with
  | none => simp [hasActivePc] at h
  | some sess =>
    cases hsdh : sess.sdh with
    | none => simp [hasActivePc, hsdh] at h
    | some sdh =>
      cases hpc : sdh.peerConnection with
      | none => simp [hasActivePc, hsdh, hpc] at h
      | some pc =>
        cases o with
        | mute b => simp [applyOp, muteCall, hsdh, hpc, hasActivePc]
        | hold b => simp [applyOp, holdCall, hsdh, hpc, hasActivePc]

theorem applyOps_hasActivePc (ops : List CtlOp) (st : ModuleState)
    (h : hasActivePc st = true) : hasActivePc (applyOps ops st) = true := by
  induction ops generalizing st with
  | nil => exact h
  | cons o rest ih =>
    exact ih (applyOp st o) (applyOp_hasActivePc st o h)

theorem applyOp_audio_enabled (st : ModuleState) (o : CtlOp)
    (h : hasActivePc st = true) :
    ∀ s ∈ sendersOf (applyOp st o), ∀ t, s.track = some t →
      t.kind = MediaKind.audio → t.enabled = !o.arg := by
  rcases st with ⟨cs, hold⟩
  cases cs with
  | none => simp [hasActivePc] at h
  | some sess =>
    cases hsdh : sess.sdh with
    | none => simp [hasActivePc, hsdh] at h
    | some sdh =>
      cases hpc : sdh.peerConnection with
      | none => simp [hasActivePc, hsdh, hpc] at h
      | some pc =>
        cases o with
        | mute b =>
          simp only [applyOp, muteCall, hsdh, hpc, sendersOf, CtlOp.arg]
          intro s hs t ht hk
          simp only [List.mem_map] at hs
          obtain ⟨s0, _, hmap⟩ := hs
          cases hs0 : s0.track with
          | none => rw [← hmap, setAudioEnabled, hs0] at ht; rw [hs0] at ht; cases ht
          | some t0 =>
            rw [← hmap, setAudioEnabled, hs0] at ht
            by_cases hk0 : t0.kind = MediaKind.audio
            · simp only [hk0, if_pos rfl] at ht
              cases ht
              rfl
            · simp only [if_neg hk0] at ht
              rw [hs0] at ht
              cases ht
              exact absurd hk hk0
        | hold b =>
          simp only [applyOp, holdCall, hsdh, hpc, sendersOf, CtlOp.arg]
          intro s hs t ht hk
          simp only [List.mem_map] at hs
          obtain ⟨s0, _, hmap⟩ := hs
          cases hs0 : s0.track with
          | none => rw [← hmap, setTrackEnabled, hs0] at ht; rw [hs0] at ht; cases ht
          | some t0 =>
            rw [← hmap, setTrackEnabled, hs0] at ht
            simp only at ht
            cases ht
            rfl

end SipClient

/-- C1 (amended): after a nonempty sequence of `muteCall`/`holdCall` calls on
an active session with a peer connection, every audio sender's track has
`enabled` equal to the negation of the argument of the LAST call in the
sequence, whichever operation it was; the conjunction
`!muted && !onHold` of the last per-operation arguments does not govern the
result, because each call overwrites the flag unconditionally
(`muteCall` writes `!mute` to audio tracks, `holdCall` writes `!hold` to all
tracks). -/
theorem muteHold_last_op_wins (st : SipClient.ModuleState)
    (h : SipClient.hasActivePc st = true)
    (_hlive : SipClient.hasLiveAudioSender st = true)
    (ops : List SipClient.CtlOp) (o : SipClient.CtlOp)
    (init : List SipClient.CtlOp) (hops : ops = init ++ [o]) :
    ∀ s ∈ SipClient.sendersOf (SipClient.applyOps ops st),
      ∀ t, s.track = some t → t.kind = SipClient.MediaKind.audio →
        t.enabled = !o.arg := by
  subst hops
  have hfold : SipClient.applyOps (init ++ [o]) st =
      SipClient.applyOp (SipClient.applyOps init st) o := by
    simp [SipClient.applyOps, List.foldl_append]
  rw [hfold]
  exact SipClient.applyOp_audio_enabled (SipClient.applyOps init st) o
    (SipClient.applyOps_hasActivePc init st h)

namespace SipClient

/-- A live, enabled, unmuted local audio track. -/
def liveAudioTrack : MediaTrack :=
  { kind := MediaKind.audio, enabled := true,
    readyState := ReadyState.live, muted := false }

/-- A module state holding an established outbound session whose peer
connection has exactly one sender, carrying `liveAudioTrack`. -/
def oneAudioState : ModuleState :=
  { currentSession := some
      { kind := SessionKind.inviter,
        state := SessionState.Established,
        sdh := some
          { peerConnection := some
              { senders := [{ track := some liveAudioTrack, encodings := [] }],
                connectionState := "connected",
                iceConnectionState := "connected",
                signalingState := "stable",
                localSdp := none,
                remoteSdp := none } } },
    isOnHold := false }

end SipClient

/-- C1 counterexample: on a session with one live audio sender, the sequence
`muteCall(true); holdCall(false)` leaves the audio track ENABLED (the last
call, `holdCall(false)`, re-enabled it), whereas the claimed formula
`!muted && !onHold` with `muted = true` (last mute argument) and
`onHold = false` (last hold argument) demands `enabled = false`. -/
theorem muteHold_formula_counterexample :
    (SipClient.sendersOf
        (SipClient.applyOps
          [SipClient.CtlOp.mute true, SipClient.CtlOp.hold false]
          SipClient.oneAudioState)).map
        (fun s => s.track.map (fun t => t.enabled)) = [some true] ∧
    ((!true : Bool) && (!false : Bool)) = false := by
  constructor
  · rfl
  · rfl

/-- C1 witness: the amended theorem instantiated on the concrete
one-audio-sender state with the sequence `[mute true, hold false]`: the
resulting audio sender's track (which is `liveAudioTrack` again, since the
last call re-enabled it) has `enabled = !false`. -/
theorem muteHold_last_op_wins_witness :
    SipClient.liveAudioTrack.enabled = !(SipClient.CtlOp.hold false).arg :=
  muteHold_last_op_wins SipClient.oneAudioState (by decide) (by decide)
    [SipClient.CtlOp.mute true, SipClient.CtlOp.hold false]
    (SipClient.CtlOp.hold false) [SipClient.CtlOp.mute true] rfl
    { track := some SipClient.liveAudioTrack, encodings := [] }
    (by decide) SipClient.liveAudioTrack rfl rfl

namespace SipClient

/-- Events observed by `initSIP`'s promise once the user agent has started:
a registration state change reported to the `stateChange` listener
(`Registered`, `Unregistered`, `Terminated`) or the firing of the
10-second registration timer. -/
inductive RegEvent where
  | stateRegistered
  | stateUnregistered
  | stateTerminated
  | timerFired
deriving DecidableEq, Repr

/-- The observable status of the promise returned by `initSIP`. -/
inductive InitOutcome where
  | pending
  | resolved
  | rejected (msg : String)
deriving DecidableEq, Repr

/-- The bound `initSIP` passes to `setTimeout` for its registration timer,
in milliseconds. -/
def registrationTimeoutMs : Nat := 10000

/-- Message of the error `initSIP` rejects with on an `Unregistered`
transition before success. -/
def registrationFailedMsg : String := "Registration failed or expired."

/-- Message of the error `initSIP` rejects with when the registration timer
fires first. -/
def registrationTimeoutMsg : String := "Registration timed out after 10 seconds."

/-- One event step of `initSIP`'s promise logic: `safeResolve`/`safeReject`
only act while the promise is unsettled (`isPromiseSettled` guard), the
`Registered` state resolves, `Unregistered` rejects with the registration
error, `Terminated` only logs, and the timer firing rejects with the
timeout error. -/
def initStep (o : InitOutcome) (e : RegEvent) : InitOutcome :=
  match o with
  | InitOutcome.pending =>
    match e with
    | RegEvent.stateRegistered => InitOutcome.resolved
    | RegEvent.stateUnregistered => InitOutcome.rejected registrationFailedMsg
    | RegEvent.stateTerminated => InitOutcome.pending
    | RegEvent.timerFired => InitOutcome.rejected registrationTimeoutMsg
  | settled => settled

/-- The status of `initSIP`'s promise after a sequence of registration
events and timer firings, starting unsettled. -/
def initSIPOutcome (events : List RegEvent) : InitOutcome :=
  events.foldl initStep InitOutcome.pending

/-- Whether an event settles the pending promise (registration reached a
terminal report or the timer fired). -/
def settles (e : RegEvent) : Bool :=
  match e with
  | RegEvent.stateRegistered => true
  | RegEvent.stateUnregistered => true
  | RegEvent.stateTerminated => false
  | RegEvent.timerFired => true

theorem foldl_initStep_resolved (l : List RegEvent) :
    l.foldl initStep InitOutcome.resolved = InitOutcome.resolved := by
  induction l with
  | nil => rfl
  | cons e rest ih => exact ih

theorem foldl_initStep_rejected (m : String) (l : List RegEvent) :
    l.foldl initStep (InitOutcome.rejected m) = InitOutcome.rejected m := by
  induction l with
  | nil => rfl
  | cons e rest ih => exact ih

theorem initSIPOutcome_of_first_settling (events : List RegEvent) :
    (events.find? settles = none → initSIPOutcome events = InitOutcome.pending) ∧
    (events.find? settles = some RegEvent.stateRegistered →
      initSIPOutcome events = InitOutcome.resolved) ∧
    (events.find? settles = some RegEvent.stateUnregistered →
      initSIPOutcome events = InitOutcome.rejected registrationFailedMsg) ∧
    (events.find? settles = some RegEvent.timerFired →
      initSIPOutcome events = InitOutcome.rejected registrationTimeoutMsg) := by
  induction events with
  | nil =>
    refine ⟨fun _ => rfl, fun h => ?_, fun h => ?_, fun h => ?_⟩ <;> cases h
  | cons e rest ih =>
    cases e with
    | stateRegistered =>
      refine ⟨fun h => ?_, fun _ => ?_, fun h => ?_, fun h => ?_⟩
      · simp [List.find?, settles] at h
      · exact foldl_initStep_resolved rest
      · simp [List.find?, settles] at h
      · simp [List.find?, settles] at h
    | stateUnregistered =>
      refine ⟨fun h => ?_, fun h => ?_, fun _ => ?_, fun h => ?_⟩
      · simp [List.find?, settles] at h
      · simp [List.find?, settles] at h
      · exact foldl_initStep_rejected registrationFailedMsg rest
      · simp [List.find?, settles] at h
    | stateTerminated =>
      have hfind : (RegEvent.stateTerminated :: rest).find? settles =
          rest.find? settles := by
        simp [List.find?, settles]
      have hout : initSIPOutcome (RegEvent.stateTerminated :: rest) =
          initSIPOutcome rest := rfl
      rw [hfind, hout]
      exact ih
    | timerFired =>
      refine ⟨fun h => ?_, fun h => ?_, fun h => ?_, fun _ => ?_⟩
      · simp [List.find?, settles] at h
      · simp [List.find?, settles] at h
      · simp [List.find?, settles] at h
      · exact foldl_initStep_rejected registrationTimeoutMsg rest

theorem initSIPOutcome_resolved_iff (events : List RegEvent) :
    initSIPOutcome events = InitOutcome.resolved ↔
      events.find? settles = some RegEvent.stateRegistered := by
  constructor
  · intro h
    cases hf : events.find? settles with
    | none =>
      rw [(initSIPOutcome_of_first_settling events).1 hf] at h
      cases h
    | some e =>
      cases e with
      | stateRegistered => rfl
      | stateUnregistered =>
        rw [(initSIPOutcome_of_first_settling events).2.2.1 hf] at h
        cases h
      | stateTerminated =>
        exfalso
        have := List.find?_some hf
        simp [settles] at this
      | timerFired =>
        rw [(initSIPOutcome_of_first_settling events).2.2.2 hf] at h
        cases h
  · exact (initSIPOutcome_of_first_settling events).2.1

end SipClient

/-- C7: `initSIP`'s promise resolves exactly when the first settling event it
observes is the registration's transition to `Registered`; it rejects with
the registration-failure error when an `Unregistered` transition settles it
first, and with the timeout error when the 10-second timer (set to
10000 ms) fires before any terminal registration transition. -/
theorem initSIP_promise_semantics (events : List SipClient.RegEvent) :
    (SipClient.initSIPOutcome events = SipClient.InitOutcome.resolved ↔
      events.find? SipClient.settles = some SipClient.RegEvent.stateRegistered) ∧
    (events.find? SipClient.settles = some SipClient.RegEvent.stateUnregistered →
      SipClient.initSIPOutcome events =
        SipClient.InitOutcome.rejected SipClient.registrationFailedMsg) ∧
    (events.find? SipClient.settles = some SipClient.RegEvent.timerFired →
      SipClient.initSIPOutcome events =
        SipClient.InitOutcome.rejected SipClient.registrationTimeoutMsg) ∧
    SipClient.registrationTimeoutMs = 10000 :=
  ⟨SipClient.initSIPOutcome_resolved_iff events,
   (SipClient.initSIPOutcome_of_first_settling events).2.2.1,
   (SipClient.initSIPOutcome_of_first_settling events).2.2.2,
   rfl⟩

/-- C7 witness: a run where a non-terminal `Terminated` report is followed by
the timer firing rejects with the timeout error. -/
theorem initSIP_promise_semantics_witness :
    SipClient.initSIPOutcome
        [SipClient.RegEvent.stateTerminated, SipClient.RegEvent.timerFired] =
      SipClient.InitOutcome.rejected SipClient.registrationTimeoutMsg :=
  (initSIP_promise_semantics
      [SipClient.RegEvent.stateTerminated, SipClient.RegEvent.timerFired]).2.2.1
    (by decide)

namespace SipClient

/-- Character-list core of JavaScript `String.prototype.startsWith`. -/
def startsWithChars : List Char → List Char → Bool
  | [], _ => true
  | _ :: _, [] => false
  | p :: ps, a :: rest => p = a && startsWithChars ps rest

/-- JavaScript `String.prototype.startsWith`, over the embedding's string
representation. -/
def jsStartsWith (s pre : String) : Bool :=
  startsWithChars pre.data s.data

/-- JavaScript `String.prototype.includes` with a one-character needle, as
used by the client (`formattedTarget.includes('@')`). -/
def jsIncludes (s : String) (c : Char) : Bool :=
  s.data.any fun a => a = c

/-- Split a character list at every occurrence of the separator, keeping
empty pieces, like JavaScript `String.prototype.split` with a one-character
separator. -/
def splitChar (c : Char) : List Char → List (List Char)
  | [] => [[]]
  | a :: rest =>
    if a = c then [] :: splitChar c rest
    else
      match splitChar c rest with
      | [] => [[a]]
      | h :: t => (a :: h) :: t

/-- JavaScript `String.prototype.split` with a one-character separator. -/
def jsSplit (c : Char) (s : String) : List String :=
  (splitChar c s.data).map fun l => { data := l }

/-- The fallback domain the client appends when the registered URI yields
none. -/
def defaultDomain : String := "jsmwebrtc.my.id"

/-- The target-normalisation logic shared by `makeCall`, `sendMessage` and
`transferCall`: prepend `sip:` when the target has neither the `sip:` nor
the `sips:` scheme, and when the result still has no `@`, append the domain
extracted from the registered URI (`registeredURI.split('@')[1]?.split(';')[0]`),
falling back to `jsmwebrtc.my.id` when that is empty/undefined. -/
def formatTarget (target registeredURI : String) : String :=
  let t1 :=
    if !(jsStartsWith target "sip:") && !(jsStartsWith target "sips:") then
      "sip:" ++ target
    else target
  if !(jsIncludes t1 '@') then
    let afterAt := (jsSplit '@' registeredURI).getD 1 ""
    let d := (jsSplit ';' afterAt).headD ""
    let domain := if d = "" then defaultDomain else d
    t1 ++ "@" ++ domain
  else t1

/-- Message the client substitutes for a permission-denied media error. -/
def permissionDeniedMsg : String :=
  "Microphone or camera access denied. Please allow access in your browser settings."

/-- Message the client substitutes for a device-not-found media error. -/
def deviceNotFoundMsg : String :=
  "No microphone or camera found. Please check your device connections."

/-- Message of the error thrown when the formatted target is not a valid
URI. -/
def invalidTargetMsg (ft : String) : String :=
  "Invalid target URI: " ++ ft ++ ". Please use format: username@domain or sip:username@domain"

/-- The error-translation performed in `makeCall`'s catch block: a
`DOMException` named `NotAllowedError`/`PermissionDeniedError` or
`NotFoundError` is replaced by a friendlier `Error`; everything else is
re-thrown unchanged. -/
def mapMediaError : JsError → JsError
  | JsError.domException name msg =>
    if name = "NotAllowedError" ∨ name = "PermissionDeniedError" then
      JsError.error permissionDeniedMsg
    else if name = "NotFoundError" then
      JsError.error deviceNotFoundMsg
    else JsError.domException name msg
  | JsError.error msg => JsError.error msg

/-- Observable effects of one `makeCall` invocation: whether local media was
acquired by `getUserMedia`, whether the acquired stream was stopped before
returning (the source never stops it), the formatted target (when reached),
whether `inviter.invite()` was dispatched, and the error thrown (if any;
`none` means the call resolved with the new session). -/
structure MakeCallResult where
  mediaAcquired : Bool
  mediaStopped : Bool
  formattedTarget : Option String
  invited : Bool
  thrown : Option JsError
deriving DecidableEq, Repr

/-- The freshly created `Inviter` stored into `currentSession` by
`makeCall` (no session description handler exists until establishment). -/
def newOutboundSession : Session :=
  { kind := SessionKind.inviter, state := SessionState.Initial, sdh := none }

/-- `makeCall(target, withVideo)`.  The source first awaits
`getUserMedia` (outcome supplied here as `media`; the video constraint only
parametrises that call), then formats the target, then builds the target
URI (`UserAgent.makeURI`, abstracted as the `uriOk` oracle) — throwing the
invalid-target error when it fails, with the already-acquired stream left
running — and finally stores the new `Inviter` in `currentSession` and
dispatches `invite()`.  A media failure is translated by `mapMediaError`
and re-thrown before any target handling. -/
def makeCall (target registeredURI : String) (media : Except JsError Unit)
    (uriOk : String → Bool) (st : ModuleState) : MakeCallResult × ModuleState :=
  match media with
  | Except.error e =>
    ({ mediaAcquired := false, mediaStopped := false, formattedTarget := none,
       invited := false, thrown := some (mapMediaError e) }, st)
  | Except.ok _ =>
    let ft := formatTarget target registeredURI
    if uriOk ft then
      ({ mediaAcquired := true, mediaStopped := false, formattedTarget := some ft,
         invited := true, thrown := none },
       { st with currentSession := some newOutboundSession })
    else
      ({ mediaAcquired := true, mediaStopped := false, formattedTarget := some ft,
         invited := false,
         thrown := some (JsError.error (invalidTargetMsg ft)) }, st)

/-- Observable effects of one `acceptCall` invocation: whether
`invitation.accept` ran, whether `invitation.reject()` was called, and the
error re-thrown to the caller (if any). -/
structure AcceptResult where
  accepted : Bool
  rejected : Bool
  thrown : Option JsError
deriving DecidableEq, Repr

/-- `acceptCall(invitation, withVideo)`.  On successful media acquisition it
accepts the invitation and stores it in `currentSession`.  In the catch
block the source FIRST translates permission-denied and device-not-found
errors into friendlier `Error`s and throws them immediately — reaching
`invitation.reject()` and the original-error rethrow only for other
errors. -/
def acceptCall (invitation : Session) (media : Except JsError Unit)
    (st : ModuleState) : AcceptResult × ModuleState :=
  match media with
  | Except.ok _ =>
    ({ accepted := true, rejected := false, thrown := none },
     { st with currentSession := some invitation })
  | Except.error e =>
    match e with
    | JsError.domException name msg =>
      if name = "NotAllowedError" ∨ name = "PermissionDeniedError" then
        ({ accepted := false, rejected := false,
           thrown := some (JsError.error permissionDeniedMsg) }, st)
      else if name = "NotFoundError" then
        ({ accepted := false, rejected := false,
           thrown := some (JsError.error deviceNotFoundMsg) }, st)
      else
        ({ accepted := false, rejected := true,
           thrown := some (JsError.domException name msg) }, st)
    | JsError.error msg =>
      ({ accepted := false, rejected := true,
         thrown := some (JsError.error msg) }, st)

/-- An inbound invitation still in its initial (ringing) dialog state. -/
def ringingInvitation : Session :=
  { kind := SessionKind.invitation, state := SessionState.Initial, sdh := none }

end SipClient

/-- C2 (code bug): when `getUserMedia` fails with the permission-denied
`DOMException` (`NotAllowedError`), `acceptCall` throws the substituted
friendly error BEFORE the catch block reaches `invitation.reject()`, so the
invitation is left ringing, and the error surfaced to the caller is not the
original acquisition error. -/
theorem acceptCall_permission_denied_skips_reject :
    ((SipClient.acceptCall SipClient.ringingInvitation
        (Except.error (SipClient.JsError.domException "NotAllowedError" "Permission denied"))
        SipClient.idleState).1.rejected = false) ∧
    ((SipClient.acceptCall SipClient.ringingInvitation
        (Except.error (SipClient.JsError.domException "NotAllowedError" "Permission denied"))
        SipClient.idleState).1.thrown =
      some (SipClient.JsError.error SipClient.permissionDeniedMsg)) ∧
    SipClient.JsError.error SipClient.permissionDeniedMsg ≠
      SipClient.JsError.domException "NotAllowedError" "Permission denied" := by
  refine ⟨rfl, rfl, ?_⟩
  intro h
  cases h

/-- C3 counterexample: calling `makeCall` with a malformed target (here the
URI oracle fails on the formatted string, as `UserAgent.makeURI` does on a
target containing a space) DOES acquire local media first — the
`getUserMedia` call precedes target formatting and URI construction — and
the acquired stream is not stopped before the invalid-target error is
thrown, contradicting the claim that no media acquisition is performed. -/
theorem makeCall_invalid_target_touches_media :
    ((SipClient.makeCall "bad target" "sip:alice@example.com" (Except.ok ())
        (fun _ => false) SipClient.idleState).1.mediaAcquired = true) ∧
    ((SipClient.makeCall "bad target" "sip:alice@example.com" (Except.ok ())
        (fun _ => false) SipClient.idleState).1.mediaStopped = false) ∧
    ((SipClient.makeCall "bad target" "sip:alice@example.com" (Except.ok ())
        (fun _ => false) SipClient.idleState).1.thrown =
      some (SipClient.JsError.error
        (SipClient.invalidTargetMsg "sip:bad target@example.com"))) := by
  refine ⟨rfl, rfl, ?_⟩
  rfl

/-- C3 (amended): when target-URI construction fails, `makeCall` fails with
the invalid-target error, dispatches no invite and leaves the module state
unchanged — but only AFTER local media acquisition has already been
performed, and the acquired media is left running (never stopped) when the
error propagates. -/
theorem makeCall_invalid_target_after_media (target registeredURI : String)
    (uriOk : String → Bool) (st : SipClient.ModuleState)
    (h : uriOk (SipClient.formatTarget target registeredURI) = false) :
    SipClient.makeCall target registeredURI (Except.ok ()) uriOk st =
      ({ mediaAcquired := true, mediaStopped := false,
         formattedTarget := some (SipClient.formatTarget target registeredURI),
         invited := false,
         thrown := some (SipClient.JsError.error
           (SipClient.invalidTargetMsg
             (SipClient.formatTarget target registeredURI))) }, st) := by
  simp [SipClient.makeCall, h]

/-- C3 witness: the amended theorem evaluated on a concrete malformed
target. -/
theorem makeCall_invalid_target_after_media_witness :
    SipClient.makeCall "bad target" "sip:alice@example.com" (Except.ok ())
        (fun _ => false) SipClient.idleState =
      ({ mediaAcquired := true, mediaStopped := false,
         formattedTarget :=
           some (SipClient.formatTarget "bad target" "sip:alice@example.com"),
         invited := false,
         thrown := some (SipClient.JsError.error
           (SipClient.invalidTargetMsg
             (SipClient.formatTarget "bad target" "sip:alice@example.com"))) },
       SipClient.idleState) :=
  makeCall_invalid_target_after_media "bad target" "sip:alice@example.com"
    (fun _ => false) SipClient.idleState rfl

namespace SipClient

theorem splitChar_of_not_mem (c : Char) (l : List Char)
    (h : l.any (fun a => a = c) = false) : splitChar c l = [l] := by
  induction l with
  | nil => rfl
  | cons a rest ih =>
    simp only [List.any_cons, Bool.or_eq_false_iff, decide_eq_false_iff_not] at h
    rw [splitChar, if_neg h.1, ih (by simpa using h.2)]

theorem splitChar_append (c : Char) (l1 l2 : List Char)
    (h : l1.any (fun a => a = c) = false) :
    splitChar c (l1 ++ c :: l2) = l1 :: splitChar c l2 := by
  induction l1 with
  | nil => simp [splitChar]
  | cons a rest ih =>
    simp only [List.any_cons, Bool.or_eq_false_iff, decide_eq_false_iff_not] at h
    rw [List.cons_append, splitChar, if_neg h.1, ih (by simpa using h.2)]

end SipClient

/-- C8: for a target with no `@` and no `sip:`/`sips:` scheme, `makeCall`
normalises it to `sip:<target>@<domain>` with the domain taken from the
registered user agent URI `sip:<user>@<domain>` (the part after `@`, up to
any `;` parameter), and dispatches the invite to that formatted target. -/
theorem makeCall_normalizes_bare_target (target user domain : String)
    (uriOk : String → Bool) (st : SipClient.ModuleState)
    (h1 : SipClient.jsStartsWith target "sip:" = false)
    (h2 : SipClient.jsStartsWith target "sips:" = false)
    (h3 : target.data.any (fun a => a = '@') = false)
    (h4 : user.data.any (fun a => a = '@') = false)
    (h5 : domain.data.any (fun a => a = '@') = false)
    (h6 : domain.data.any (fun a => a = ';') = false)
    (h7 : domain ≠ "")
    (h8 : uriOk ("sip:" ++ target ++ "@" ++ domain) = true) :
    SipClient.formatTarget target ("sip:" ++ user ++ "@" ++ domain) =
      "sip:" ++ target ++ "@" ++ domain ∧
    (SipClient.makeCall target ("sip:" ++ user ++ "@" ++ domain)
        (Except.ok ()) uriOk st).1.formattedTarget =
      some ("sip:" ++ target ++ "@" ++ domain) ∧
    (SipClient.makeCall target ("sip:" ++ user ++ "@" ++ domain)
        (Except.ok ()) uriOk st).1.invited = true := by
  have hdata : ("sip:" ++ user ++ "@" ++ domain).data =
      ("sip:".data ++ user.data) ++ '@' :: domain.data := by
    simp [String.data_append]
  have hno : ("sip:".data ++ user.data).any (fun a => a = '@') = false := by
    rw [List.any_append, h4]
    rfl
  have hsplit1 : SipClient.jsSplit '@' ("sip:" ++ user ++ "@" ++ domain) =
      [{ data := "sip:".data ++ user.data }, domain] := by
    rw [SipClient.jsSplit, hdata, SipClient.splitChar_append '@' _ _ hno,
      SipClient.splitChar_of_not_mem '@' _ h5]
    rfl
  have hsplit2 : SipClient.jsSplit ';' domain = [domain] := by
    rw [SipClient.jsSplit, SipClient.splitChar_of_not_mem ';' _ h6]
    rfl
  have ht1 : SipClient.jsIncludes ("sip:" ++ target) '@' = false := by
    rw [SipClient.jsIncludes, String.data_append, List.any_append, h3]
    rfl
  have hft : SipClient.formatTarget target ("sip:" ++ user ++ "@" ++ domain) =
      "sip:" ++ target ++ "@" ++ domain := by
    rw [SipClient.formatTarget]
    simp only [h1, h2, Bool.not_false, Bool.and_self, if_true, ht1,
      Bool.not_false, if_true, hsplit1]
    rw [List.getD]
    simp only [List.get?, Option.getD_some]
    rw [hsplit2]
    simp [h7]
  refine ⟨hft, ?_, ?_⟩ <;> simp [SipClient.makeCall, hft, h8]

/-- C8 witness: `makeCall("bob")` with registered URI
`sip:alice@example.com` dispatches to `sip:bob@example.com`. -/
theorem makeCall_normalizes_bare_target_witness :
    SipClient.formatTarget "bob" ("sip:" ++ "alice" ++ "@" ++ "example.com") =
      "sip:" ++ "bob" ++ "@" ++ "example.com" ∧
    (SipClient.makeCall "bob" ("sip:" ++ "alice" ++ "@" ++ "example.com")
        (Except.ok ()) (fun _ => true) SipClient.idleState).1.formattedTarget =
      some ("sip:" ++ "bob" ++ "@" ++ "example.com") ∧
    (SipClient.makeCall "bob" ("sip:" ++ "alice" ++ "@" ++ "example.com")
        (Except.ok ()) (fun _ => true) SipClient.idleState).1.invited = true :=
  makeCall_normalizes_bare_target "bob" "alice" "example.com"
    (fun _ => true) SipClient.idleState rfl rfl (by decide) (by decide)
    (by decide) (by decide) (by decide) rfl

/-- `hangupCall` leaves the `isOnHold` flag untouched. -/
theorem hangupCall_isOnHold (st : SipClient.ModuleState) :
    (SipClient.hangupCall st).1.isOnHold = st.isOnHold := by
  cases h : st.currentSession <;> simp [SipClient.hangupCall, h]

/-- `hangupCall` always leaves `currentSession` cleared. -/
theorem hangupCall_clears (st : SipClient.ModuleState) :
    (SipClient.hangupCall st).1.currentSession = none := by
  cases h : st.currentSession <;> simp [SipClient.hangupCall, h]

/-- `makeCall` leaves the `isOnHold` flag untouched. -/
theorem makeCall_isOnHold (target registeredURI : String)
    (media : Except SipClient.JsError Unit) (uriOk : String → Bool)
    (st : SipClient.ModuleState) :
    (SipClient.makeCall target registeredURI media uriOk st).2.isOnHold =
      st.isOnHold := by
  cases media with
  | error e => rfl
  | ok u =>
    rw [SipClient.makeCall]
    by_cases hu : uriOk (SipClient.formatTarget target registeredURI) = true
    · simp [hu]
    · simp [hu]

/-- `acceptCall` leaves the `isOnHold` flag untouched. -/
theorem acceptCall_isOnHold (inv : SipClient.Session)
    (media : Except SipClient.JsError Unit) (st : SipClient.ModuleState) :
    (SipClient.acceptCall inv media st).2.isOnHold = st.isOnHold := by
  cases media with
  | ok u => rfl
  | error e =>
    cases e with
    | domException name msg =>
      rw [SipClient.acceptCall]
      by_cases ha : name = "NotAllowedError" ∨ name = "PermissionDeniedError"
      · simp [ha]
      · by_cases hb : name = "NotFoundError" <;> simp [ha, hb]
    | error msg => rfl

/-- A successful `holdCall(true)` sets the `isOnHold` flag and returns
`true`. -/
theorem holdCall_true_sets_flag (st : SipClient.ModuleState)
    (sess : SipClient.Session) (sdh : SipClient.SessionDescriptionHandler)
    (pc : SipClient.PeerConnection)
    (h1 : st.currentSession = some sess)
    (h2 : sess.sdh = some sdh)
    (h3 : sdh.peerConnection = some pc) :
    (SipClient.holdCall true st).1.isOnHold = true ∧
      (SipClient.holdCall true st).2 = true := by
  refine ⟨?_, ?_⟩ <;> simp [SipClient.holdCall, h1, h2, h3]

/-- C10: `hangupCall` never resets the module-level `isOnHold` flag.  After a
successful `holdCall(true)` followed by `hangupCall`, `isCallOnHold()` still
returns `true` with no session active, and a subsequently placed
(`makeCall`) or accepted (`acceptCall`) call starts with the stale flag
still set. -/
theorem hold_flag_survives_hangup (st : SipClient.ModuleState)
    (sess : SipClient.Session) (sdh : SipClient.SessionDescriptionHandler)
    (pc : SipClient.PeerConnection) (inv : SipClient.Session)
    (target registeredURI : String) (uriOk : String → Bool)
    (h1 : st.currentSession = some sess)
    (h2 : sess.sdh = some sdh)
    (h3 : sdh.peerConnection = some pc) :
    (SipClient.holdCall true st).2 = true ∧
    SipClient.isCallOnHold
      (SipClient.hangupCall (SipClient.holdCall true st).1).1 = true ∧
    (SipClient.hangupCall (SipClient.holdCall true st).1).1.currentSession = none ∧
    SipClient.isCallOnHold
      ((SipClient.makeCall target registeredURI (Except.ok ()) uriOk
        (SipClient.hangupCall (SipClient.holdCall true st).1).1).2) = true ∧
    SipClient.isCallOnHold
      ((SipClient.acceptCall inv (Except.ok ())
        (SipClient.hangupCall (SipClient.holdCall true st).1).1).2) = true := by
  obtain ⟨hflag, hret⟩ := holdCall_true_sets_flag st sess sdh pc h1 h2 h3
  have hafter : SipClient.isCallOnHold
      (SipClient.hangupCall (SipClient.holdCall true st).1).1 = true := by
    rw [SipClient.isCallOnHold, hangupCall_isOnHold, hflag]
  refine ⟨hret, hafter, hangupCall_clears _, ?_, ?_⟩
  · rw [SipClient.isCallOnHold, makeCall_isOnHold]
    rw [SipClient.isCallOnHold] at hafter
    exact hafter
  · rw [SipClient.isCallOnHold, acceptCall_isOnHold]
    rw [SipClient.isCallOnHold] at hafter
    exact hafter

/-- C10 witness: the theorem evaluated on the concrete one-audio-sender
state, then placing a call to `bob` and accepting a fresh inbound call. -/
theorem hold_flag_survives_hangup_witness :
    (SipClient.holdCall true SipClient.oneAudioState).2 = true ∧
    SipClient.isCallOnHold
      (SipClient.hangupCall
        (SipClient.holdCall true SipClient.oneAudioState).1).1 = true ∧
    (SipClient.hangupCall
      (SipClient.holdCall true SipClient.oneAudioState).1).1.currentSession
        = none ∧
    SipClient.isCallOnHold
      ((SipClient.makeCall "bob" "sip:alice@example.com" (Except.ok ())
        (fun _ => true)
        (SipClient.hangupCall
          (SipClient.holdCall true SipClient.oneAudioState).1).1).2) = true ∧
    SipClient.isCallOnHold
      ((SipClient.acceptCall SipClient.ringingInvitation (Except.ok ())
        (SipClient.hangupCall
          (SipClient.holdCall true SipClient.oneAudioState).1).1).2) = true :=
  hold_flag_survives_hangup SipClient.oneAudioState _ _ _
    SipClient.ringingInvitation "bob" "sip:alice@example.com" (fun _ => true)
    rfl rfl rfl

namespace SipClient

/-- One entry of `debugAudioTracks`'s per-sender snapshot: either the track's
observed fields (with `enabled` recorded BEFORE any repair, and `fixed`
marking that the repair ran) or a marker that the sender carries no
track. -/
inductive TrackInfo where
  | withTrack (index : Nat) (kind : MediaKind) (enabled : Bool)
      (readyState : ReadyState) (muted : Bool) (fixed : Bool)
  | noTrack (index : Nat)
deriving DecidableEq, Repr

/-- The object `debugAudioTracks` returns.  Early error returns fill only
`status` and `message`; the full returns add the connection states, the
track snapshot, both SDPs, and (on success) the server-side suggestions. -/
structure DebugReport where
  status : String
  message : String
  connectionState : Option String := none
  iceConnectionState : Option String := none
  signalingState : Option String := none
  tracks : Option (List TrackInfo) := none
  localSdp : Option String := none
  remoteSdp : Option String := none
  suggestions : Option (List String) := none
deriving DecidableEq, Repr

/-- The static suggestion list attached to a success report. -/
def troubleshootingSuggestions : List String :=
  ["Ensure NAT traversal is properly configured on the server",
   "Check if the server is configured to allow audio in both directions",
   "Verify that the SIP server is not blocking or filtering RTP packets",
   "Check firewall settings to ensure RTP ports are open (typically 10000-20000)"]

/-- The sender has an audio track whose `enabled` flag is `false` (the
repair condition of `debugAudioTracks`). -/
def audioDisabled (s : RTCRtpSender) : Bool :=
  match s.track with
  | some t => decide (t.kind = MediaKind.audio) && !t.enabled
  | none => false

/-- The sender has an audio track (the `audioSenders` filter of the
source). -/
def isAudioSender (s : RTCRtpSender) : Bool :=
  match s.track with
  | some t => decide (t.kind = MediaKind.audio)
  | none => false

/-- The encoding repair inside the sender loop: for an audio sender, every
encoding whose `active` flag is explicitly `false` is activated via
`setParameters`; other senders' encodings are untouched. -/
def fixEncodings (isAudio : Bool) (encs : List (Option Bool)) : List (Option Bool) :=
  if isAudio then
    encs.map fun a => if a = some false then some true else a
  else encs

/-- One iteration of `debugAudioTracks`'s `senders.forEach`: snapshot the
track (pre-repair `enabled`), enable a disabled audio track counting it as
fixed, and repair inactive audio encodings. -/
def processSender (i : Nat) (s : RTCRtpSender) : TrackInfo × Nat × RTCRtpSender :=
  match s.track with
  | some t =>
    let isAudio := decide (t.kind = MediaKind.audio)
    let needFix := isAudio && !t.enabled
    let t' := if needFix then { t with enabled := true } else t
    (TrackInfo.withTrack i t.kind t.enabled t.readyState t.muted needFix,
     (if needFix then 1 else 0),
     { track := some t', encodings := fixEncodings isAudio s.encodings })
  | none => (TrackInfo.noTrack i, 0, s)

/-- The whole `senders.forEach` loop: the snapshot list, the number of fixed
tracks, and the senders after repair. -/
def processSenders (i : Nat) : List RTCRtpSender → List TrackInfo × Nat × List RTCRtpSender
  | [] => ([], 0, [])
  | s :: rest =>
    let r := processSender i s
    let rr := processSenders (i + 1) rest
    (r.1 :: rr.1, r.2.1 + rr.2.1, r.2.2 :: rr.2.2)

/-- The `fixed` flag of a snapshot entry (`false` for no-track entries). -/
def fixedFlag : TrackInfo → Bool
  | TrackInfo.withTrack _ _ _ _ _ f => f
  | TrackInfo.noTrack _ => false

/-- How many snapshot entries of a report are marked `fixed`. -/
def reportFixedCount (r : DebugReport) : Nat :=
  (r.tracks.getD []).countP fixedFlag

/-- `debugAudioTracks()`: error reports for a missing session, handler or
peer connection; otherwise it runs the repair loop over the senders,
filters the (repaired, in-place) sender list for audio senders, and returns
the no-audio error report when none exist, else a success report whose
message counts the fixed tracks. -/
def debugAudioTracks (st : ModuleState) : DebugReport × ModuleState :=
  match st.currentSession with
  | none => ({ status := "error", message := "No active call" }, st)
  | some sess =>
    match sess.sdh with
    | none =>
      ({ status := "error", message := "No sessionDescriptionHandler found" }, st)
    | some sdh =>
      match sdh.peerConnection with
      | none => ({ status := "error", message := "No peerConnection found" }, st)
      | some pc =>
        let r := processSenders 0 pc.senders
        let pc' := { pc with senders := r.2.2 }
        let sess' := { sess with sdh := some { sdh with peerConnection := some pc' } }
        let st' := { st with currentSession := some sess' }
        if (r.2.2).countP isAudioSender = 0 then
          ({ status := "error", message := "No audio tracks found",
             connectionState := some pc.connectionState,
             iceConnectionState := some pc.iceConnectionState,
             signalingState := some pc.signalingState,
             tracks := some r.1,
             localSdp := some (pc.localSdp.getD ""),
             remoteSdp := some (pc.remoteSdp.getD "") }, st')
        else
          ({ status := "success",
             message :=
               if r.2.1 > 0 then
                 "Fixed " ++ toString r.2.1 ++ " audio tracks"
               else "All audio tracks are properly configured",
             connectionState := some pc.connectionState,
             iceConnectionState := some pc.iceConnectionState,
             signalingState := some pc.signalingState,
             tracks := some r.1,
             localSdp := some (pc.localSdp.getD ""),
             remoteSdp := some (pc.remoteSdp.getD ""),
             suggestions := some troubleshootingSuggestions }, st')

theorem processSenders_count (i : Nat) (l : List RTCRtpSender) :
    (processSenders i l).2.1 = l.countP audioDisabled := by
  induction l generalizing i with
  | nil => rfl
  | cons s rest ih =>
    rw [processSenders, List.countP_cons]
    cases hs : s.track with
    | none =>
      simp [processSender, hs, audioDisabled, ih, Nat.add_comm]
    | some t =>
      simp only [processSender, hs, audioDisabled, ih]
      by_cases hfix : (decide (t.kind = MediaKind.audio) && !t.enabled) = true
      · simp [hfix, Nat.add_comm]
      · simp [hfix, Bool.eq_false_iff.mpr hfix]

theorem processSenders_infos_fixed (i : Nat) (l : List RTCRtpSender) :
    ((processSenders i l).1).countP fixedFlag = l.countP audioDisabled := by
  induction l generalizing i with
  | nil => rfl
  | cons s rest ih =>
    rw [processSenders, List.countP_cons, List.countP_cons]
    cases hs : s.track with
    | none =>
      simp [processSender, hs, audioDisabled, fixedFlag, ih]
    | some t =>
      simp only [processSender, hs, audioDisabled, ih]
      by_cases hfix : (decide (t.kind = MediaKind.audio) && !t.enabled) = true
      · simp [hfix, fixedFlag]
      · simp [hfix, Bool.eq_false_iff.mpr hfix, fixedFlag]

theorem processSenders_post_disabled (i : Nat) (l : List RTCRtpSender) :
    ((processSenders i l).2.2).countP audioDisabled = 0 := by
  induction l generalizing i with
  | nil => rfl
  | cons s rest ih =>
    rw [processSenders, List.countP_cons]
    cases hs : s.track with
    | none =>
      simp [processSender, hs, audioDisabled, ih]
    | some t =>
      simp only [processSender, hs]
      by_cases hfix : (decide (t.kind = MediaKind.audio) && !t.enabled) = true
      · simp [hfix, audioDisabled, ih]
      · have hf : (decide (t.kind = MediaKind.audio) && !t.enabled) = false :=
          Bool.eq_false_iff.mpr hfix
        simp [hf, audioDisabled, ih]

theorem processSenders_post_audio (i : Nat) (l : List RTCRtpSender) :
    ((processSenders i l).2.2).countP isAudioSender = l.countP isAudioSender := by
  induction l generalizing i with
  | nil => rfl
  | cons s rest ih =>
    rw [processSenders, List.countP_cons, List.countP_cons]
    cases hs : s.track with
    | none =>
      simp [processSender, hs, ih]
    | some t =>
      simp only [processSender, hs]
      by_cases hfix : (decide (t.kind = MediaKind.audio) && !t.enabled) = true
      · simp [hfix, isAudioSender, hs, ih]
      · have hf : (decide (t.kind = MediaKind.audio) && !t.enabled) = false :=
          Bool.eq_false_iff.mpr hfix
        simp [hf, isAudioSender, hs, ih]

end SipClient

/-- C6: on an active session whose peer connection has zero audio senders,
`debugAudioTracks` returns the distinct no-audio-track error report
(`status: 'error'`, `message: 'No audio tracks found'`), never a success
report. -/
theorem debugAudioTracks_no_audio (st : SipClient.ModuleState)
    (sess : SipClient.Session) (sdh : SipClient.SessionDescriptionHandler)
    (pc : SipClient.PeerConnection)
    (h1 : st.currentSession = some sess)
    (h2 : sess.sdh = some sdh)
    (h3 : sdh.peerConnection = some pc)
    (h4 : pc.senders.countP SipClient.isAudioSender = 0) :
    (SipClient.debugAudioTracks st).1.status = "error" ∧
    (SipClient.debugAudioTracks st).1.message = "No audio tracks found" ∧
    (SipClient.debugAudioTracks st).1.status ≠ "success" := by
  have ha := SipClient.processSenders_post_audio 0 pc.senders
  rw [h4] at ha
  refine ⟨?_, ?_, ?_⟩ <;>
    simp [SipClient.debugAudioTracks, h1, h2, h3, ha]

namespace SipClient

/-- A live video track (camera capture). -/
def liveVideoTrack : MediaTrack :=
  { kind := MediaKind.video, enabled := true,
    readyState := ReadyState.live, muted := false }

/-- An established session whose peer connection carries a single video
sender and no audio sender at all. -/
def videoOnlyState : ModuleState :=
  { currentSession := some
      { kind := SessionKind.inviter,
        state := SessionState.Established,
        sdh := some
          { peerConnection := some
              { senders := [{ track := some liveVideoTrack, encodings := [] }],
                connectionState := "connected",
                iceConnectionState := "connected",
                signalingState := "stable",
                localSdp := none,
                remoteSdp := none } } },
    isOnHold := false }

end SipClient

/-- C6 witness: the theorem evaluated on a session with one video sender and
no audio sender. -/
theorem debugAudioTracks_no_audio_witness :
    (SipClient.debugAudioTracks SipClient.videoOnlyState).1.status = "error" ∧
    (SipClient.debugAudioTracks SipClient.videoOnlyState).1.message =
      "No audio tracks found" ∧
    (SipClient.debugAudioTracks SipClient.videoOnlyState).1.status ≠ "success" :=
  debugAudioTracks_no_audio SipClient.videoOnlyState _ _ _ rfl rfl rfl (by decide)

/-- C5: on an active session with exactly one audio sender whose track is
disabled, `debugAudioTracks` enables that track, its report is a success
counting one fixed track (`Fixed 1 audio tracks`), and an immediately
repeated call counts zero fixed tracks (`All audio tracks are properly
configured`): the repair is idempotent. -/
theorem debugAudioTracks_repair_idempotent (st : SipClient.ModuleState)
    (sess : SipClient.Session) (sdh : SipClient.SessionDescriptionHandler)
    (pc : SipClient.PeerConnection)
    (h1 : st.currentSession = some sess)
    (h2 : sess.sdh = some sdh)
    (h3 : sdh.peerConnection = some pc)
    (h4 : pc.senders.countP SipClient.isAudioSender = 1)
    (h5 : pc.senders.countP SipClient.audioDisabled = 1) :
    (SipClient.debugAudioTracks st).1.status = "success" ∧
    (SipClient.debugAudioTracks st).1.message = "Fixed 1 audio tracks" ∧
    SipClient.reportFixedCount (SipClient.debugAudioTracks st).1 = 1 ∧
    (SipClient.sendersOf
      (SipClient.debugAudioTracks st).2).countP SipClient.audioDisabled = 0 ∧
    (SipClient.debugAudioTracks
      (SipClient.debugAudioTracks st).2).1.status = "success" ∧
    (SipClient.debugAudioTracks
      (SipClient.debugAudioTracks st).2).1.message =
      "All audio tracks are properly configured" ∧
    SipClient.reportFixedCount
      (SipClient.debugAudioTracks (SipClient.debugAudioTracks st).2).1 = 0 := by
  have ha := SipClient.processSenders_post_audio 0 pc.senders
  have hd := SipClient.processSenders_post_disabled 0 pc.senders
  have hc := SipClient.processSenders_count 0 pc.senders
  have hi := SipClient.processSenders_infos_fixed 0 pc.senders
  rw [h4] at ha
  rw [h5] at hc
  rw [h5] at hi
  have ha2 := SipClient.processSenders_post_audio 0
    ((SipClient.processSenders 0 pc.senders).2.2)
  have hc2 := SipClient.processSenders_count 0
    ((SipClient.processSenders 0 pc.senders).2.2)
  have hi2 := SipClient.processSenders_infos_fixed 0
    ((SipClient.processSenders 0 pc.senders).2.2)
  rw [ha] at ha2
  rw [hd] at hc2
  rw [hd] at hi2
  refine ⟨?_, ?_, ?_, ?_, ?_, ?_, ?_⟩ <;>
    simp [SipClient.debugAudioTracks, h1, h2, h3, ha, hc, hd, hi, ha2, hc2,
      hi2, SipClient.reportFixedCount, SipClient.sendersOf]
  rfl

namespace SipClient

/-- A disabled (muted-by-policy) local audio track. -/
def disabledAudioTrack : MediaTrack :=
  { kind := MediaKind.audio, enabled := false,
    readyState := ReadyState.live, muted := false }

/-- An established session whose peer connection has exactly one audio
sender, currently disabled. -/
def disabledAudioState : ModuleState :=
  { currentSession := some
      { kind := SessionKind.inviter,
        state := SessionState.Established,
        sdh := some
          { peerConnection := some
              { senders := [{ track := some disabledAudioTrack, encodings := [] }],
                connectionState := "connected",
                iceConnectionState := "connected",
                signalingState := "stable",
                localSdp := none,
                remoteSdp := none } } },
    isOnHold := false }

end SipClient

/-- C5 witness: the theorem evaluated on a session with a single disabled
audio sender. -/
theorem debugAudioTracks_repair_idempotent_witness :
    (SipClient.debugAudioTracks SipClient.disabledAudioState).1.status =
      "success" ∧
    (SipClient.debugAudioTracks SipClient.disabledAudioState).1.message =
      "Fixed 1 audio tracks" ∧
    SipClient.reportFixedCount
      (SipClient.debugAudioTracks SipClient.disabledAudioState).1 = 1 ∧
    (SipClient.sendersOf
      (SipClient.debugAudioTracks
        SipClient.disabledAudioState).2).countP SipClient.audioDisabled = 0 ∧
    (SipClient.debugAudioTracks
      (SipClient.debugAudioTracks SipClient.disabledAudioState).2).1.status =
      "success" ∧
    (SipClient.debugAudioTracks
      (SipClient.debugAudioTracks SipClient.disabledAudioState).2).1.message =
      "All audio tracks are properly configured" ∧
    SipClient.reportFixedCount
      (SipClient.debugAudioTracks
        (SipClient.debugAudioTracks SipClient.disabledAudioState).2).1 = 0 :=
  debugAudioTracks_repair_idempotent SipClient.disabledAudioState _ _ _
    rfl rfl rfl (by decide) (by decide)

namespace SipClient

/-- A camera `MediaStreamTrack` with object identity (`id`) so that stopping
one track by reference cannot affect a distinct track, plus the
`getSettings().facingMode` the source reads. -/
structure CamTrack where
  id : Nat
  readyState : ReadyState
  facingMode : Option String
deriving DecidableEq, Repr

/-- The view of the current session's peer connection that `switchCamera`
manipulates: the set of known tracks and which of them the video sender
currently holds (`none` when there is no session, no handler or no video
sender — all of which make the source return `false` untouched). -/
structure CamWorld where
  tracks : List CamTrack
  videoSenderTrack : Option Nat
deriving DecidableEq, Repr

/-- Look a track up by identity. -/
def lookupTrack (w : CamWorld) (tid : Nat) : Option CamTrack :=
  w.tracks.find? fun t => t.id = tid

/-- `track.stop()`: the referenced track's `readyState` becomes `ended`. -/
def stopTrack (tid : Nat) (w : CamWorld) : CamWorld :=
  { w with tracks := w.tracks.map fun t =>
      if t.id = tid then { t with readyState := ReadyState.ended } else t }

/-- The facing mode `switchCamera` requests: `'environment'` when the
current track reports `'user'`, `'user'` otherwise (including unknown). -/
def newFacingMode (cur : Option CamTrack) : String :=
  if (cur.bind fun t => t.facingMode) = some "user" then "environment" else "user"

/-- Whether the video sender's track (if any) is live in this world. -/
def senderTrackLive (w : CamWorld) : Bool :=
  match w.videoSenderTrack with
  | none => false
  | some tid =>
    match lookupTrack w tid with
    | some t => decide (t.readyState = ReadyState.live)
    | none => false

/-- `switchCamera()` as the sequence of worlds it passes through.  The
source finds the video sender, computes the opposite facing mode, awaits
`getUserMedia` (`none` = device error, caught, returns `false`), awaits
`videoSender.replaceTrack(newTrack)` (`replaceOk = false` models a
rejection, caught, returns `false` with the old track untouched), and only
then stops the old track and returns `true`.  The returned list holds the
worlds after acquisition, after `replaceTrack` resolves, and after the old
track is stopped. -/
def switchCamera (w : CamWorld) (getUserMedia : String → Option CamTrack)
    (replaceOk : Bool) : Bool × List CamWorld :=
  match w.videoSenderTrack with
  | none => (false, [])
  | some oldId =>
    let currentTrack := lookupTrack w oldId
    match getUserMedia (newFacingMode currentTrack) with
    | none => (false, [])
    | some newTrack =>
      let w1 := { w with tracks := newTrack :: w.tracks }
      if replaceOk then
        let w2 := { w1 with videoSenderTrack := some newTrack.id }
        let w3 := stopTrack oldId w2
        (true, [w1, w2, w3])
      else (false, [w1])

end SipClient

/-- C9: when `switchCamera()` succeeds and the prior video track was live,
the old track is stopped only after `replaceTrack` has resolved with the
freshly acquired live track: the run is exactly acquisition, then
replacement, then stop-of-old, the old track is still present untouched in
the first two worlds, and in every world of the run the video sender holds
a live track — never one in the `ended` readyState. -/
theorem switchCamera_stops_old_after_replace (w : SipClient.CamWorld)
    (getUserMedia : String → Option SipClient.CamTrack)
    (oldId : Nat) (oldT newT : SipClient.CamTrack)
    (h1 : w.videoSenderTrack = some oldId)
    (h2 : SipClient.lookupTrack w oldId = some oldT)
    (h3 : oldT.readyState = SipClient.ReadyState.live)
    (h4 : getUserMedia
      (SipClient.newFacingMode (SipClient.lookupTrack w oldId)) = some newT)
    (h5 : newT.readyState = SipClient.ReadyState.live)
    (h6 : newT.id ≠ oldId) :
    (SipClient.switchCamera w getUserMedia true).1 = true ∧
    (SipClient.switchCamera w getUserMedia true).2 =
      [{ w with tracks := newT :: w.tracks },
       { w with tracks := newT :: w.tracks, videoSenderTrack := some newT.id },
       SipClient.stopTrack oldId
         { w with tracks := newT :: w.tracks, videoSenderTrack := some newT.id }] ∧
    SipClient.lookupTrack
      { w with tracks := newT :: w.tracks } oldId = some oldT ∧
    SipClient.lookupTrack
      { w with tracks := newT :: w.tracks, videoSenderTrack := some newT.id }
      oldId = some oldT ∧
    (∀ wi ∈ (SipClient.switchCamera w getUserMedia true).2,
      SipClient.senderTrackLive wi = true) := by
  have hrun : SipClient.switchCamera w getUserMedia true =
      (true,
       [{ w with tracks := newT :: w.tracks },
        { w with tracks := newT :: w.tracks, videoSenderTrack := some newT.id },
        SipClient.stopTrack oldId
          { w with
              tracks := newT :: w.tracks,
              videoSenderTrack := some newT.id }]) := by
    rw [SipClient.switchCamera]
    simp [h1, h4]
  have h2f : List.find? (fun t => decide (t.id = oldId)) w.tracks = some oldT := by
    simpa [SipClient.lookupTrack] using h2
  have hfind : List.find? (fun t => decide (t.id = oldId)) (newT :: w.tracks) =
      some oldT := by
    rw [List.find?_cons_of_neg _ (by simpa using h6)]
    exact h2f
  have hlookAny : ∀ vst, SipClient.lookupTrack
      { tracks := newT :: w.tracks, videoSenderTrack := vst } oldId =
        some oldT := by
    intro vst
    simpa [SipClient.lookupTrack] using hfind
  have hlook1 : SipClient.lookupTrack
      { w with tracks := newT :: w.tracks } oldId = some oldT :=
    hlookAny w.videoSenderTrack
  have hlook2 : SipClient.lookupTrack
      { w with tracks := newT :: w.tracks, videoSenderTrack := some newT.id }
      oldId = some oldT :=
    hlookAny (some newT.id)
  have hlive1 : SipClient.senderTrackLive
      { w with tracks := newT :: w.tracks } = true := by
    simp [SipClient.senderTrackLive, h1, hlookAny, h3]
  have hlooknew : SipClient.lookupTrack
      { w with tracks := newT :: w.tracks, videoSenderTrack := some newT.id }
      newT.id = some newT := by
    rw [SipClient.lookupTrack]
    simp only
    rw [List.find?_cons_of_pos _ (by simp)]
  have hlive2 : SipClient.senderTrackLive
      { w with tracks := newT :: w.tracks, videoSenderTrack := some newT.id }
        = true := by
    simp [SipClient.senderTrackLive, hlooknew, h5]
  have hlive3 : SipClient.senderTrackLive
      (SipClient.stopTrack oldId
        { w with
            tracks := newT :: w.tracks,
            videoSenderTrack := some newT.id }) = true := by
    rw [SipClient.senderTrackLive]
    simp only [SipClient.stopTrack, SipClient.lookupTrack, List.map_cons]
    rw [if_neg h6]
    rw [List.find?_cons_of_pos _ (by simp)]
    simp [h5]
  refine ⟨?_, ?_, hlook1, hlook2, ?_⟩
  · rw [hrun]
  · rw [hrun]
  · intro wi hwi
    rw [hrun] at hwi
    simp only [List.mem_cons, List.not_mem_nil, or_false] at hwi
    rcases hwi with h | h | h
    · rw [h]; exact hlive1
    · rw [h]; exact hlive2
    · rw [h]; exact hlive3

namespace SipClient

/-- A concrete world: the video sender holds live front-facing track 0. -/
def frontCamWorld : CamWorld :=
  { tracks := [{ id := 0, readyState := ReadyState.live,
                 facingMode := some "user" }],
    videoSenderTrack := some 0 }

/-- The freshly acquired back-facing camera track. -/
def backCamTrack : CamTrack :=
  { id := 1, readyState := ReadyState.live, facingMode := some "environment" }

end SipClient

/-- C9 witness: switching away from the live front camera, with the
acquisition returning the fresh back-facing track. -/
theorem switchCamera_stops_old_after_replace_witness :
    (SipClient.switchCamera SipClient.frontCamWorld
      (fun _ => some SipClient.backCamTrack) true).1 = true ∧
    (SipClient.switchCamera SipClient.frontCamWorld
      (fun _ => some SipClient.backCamTrack) true).2 =
      [{ SipClient.frontCamWorld with
          tracks := SipClient.backCamTrack :: SipClient.frontCamWorld.tracks },
       { SipClient.frontCamWorld with
          tracks := SipClient.backCamTrack :: SipClient.frontCamWorld.tracks,
          videoSenderTrack := some SipClient.backCamTrack.id },
       SipClient.stopTrack 0
         { SipClient.frontCamWorld with
            tracks := SipClient.backCamTrack :: SipClient.frontCamWorld.tracks,
            videoSenderTrack := some SipClient.backCamTrack.id }] ∧
    SipClient.lookupTrack
      { SipClient.frontCamWorld with
         tracks := SipClient.backCamTrack :: SipClient.frontCamWorld.tracks } 0 =
      some { id := 0, readyState := SipClient.ReadyState.live,
             facingMode := some "user" } ∧
    SipClient.lookupTrack
      { SipClient.frontCamWorld with
         tracks := SipClient.backCamTrack :: SipClient.frontCamWorld.tracks,
         videoSenderTrack := some SipClient.backCamTrack.id } 0 =
      some { id := 0, readyState := SipClient.ReadyState.live,
             facingMode := some "user" } ∧
    (∀ wi ∈ (SipClient.switchCamera SipClient.frontCamWorld
        (fun _ => some SipClient.backCamTrack) true).2,
      SipClient.senderTrackLive wi = true) :=
  switchCamera_stops_old_after_replace SipClient.frontCamWorld
    (fun _ => some SipClient.backCamTrack) 0
    { id := 0, readyState := SipClient.ReadyState.live,
      facingMode := some "user" }
    SipClient.backCamTrack rfl rfl rfl rfl rfl (by decide)
